import Mathlib

/-!
Verification of the Kaetram-Open server core: a shallow embedding of the
mob roaming handler, the TeamWar minigame, the per-player door registry,
and the player/skills aggregates, with theorems checking the written
specification against the code.

External collaborators (map queries, formula functions, random rolls) are
passed in as explicit parameters; stateful methods become functions from a
state record to a new state record together with the packets they emit.
JavaScript numbers on these code paths hold integer values, so they are
embedded as `Int`.
-/

/-! ## Mob roaming (Handler.handleRoaming) -/

namespace Roam

/-- State of a mob relevant to `handleRoaming`: current position, spawn
position, roam distance, dead flag and whether a combat session started. -/
structure MobState where
  x : Int
  y : Int
  spawnX : Int
  spawnY : Int
  roamDistance : Int
  dead : Bool
  combatStarted : Bool
  deriving DecidableEq, Repr

/-- The map collaborator consumed by the handler: collision, emptiness,
door membership and plateau level of a tile. -/
structure MapModel where
  isColliding : Int → Int → Bool
  isEmpty : Int → Int → Bool
  isDoor : Int → Int → Bool
  getPlateauLevel : Int → Int → Int

/-- Modelled from the spec: `Utils.getDistance` (from the common package,
not under src/) is the straight-line distance between two points; the
comparison `getDistance s c < d` is embedded exactly over the integers by
comparing squares, valid because both sides are non-negative whenever
`0 ≤ d`. -/
def distanceLtBool (x1 y1 x2 y2 d : Int) : Bool :=
  decide ((x2 - x1) * (x2 - x1) + (y2 - y1) * (y2 - y1) < d * d)

/-- `Handler.handleRoaming`, with the two random deltas `dx dy` (the
results of `Utils.randomInt(-roamDistance, roamDistance)`) and the frozen
spawn-plateau level passed as parameters. Returns the mob state after the
tick: either unchanged (candidate rejected or mob dead) or moved to the
candidate. The guards appear in the source's order; in particular the
fourth guard is the source's literal `if (distance < roamDistance) return`. -/
def handleRoaming (m : MapModel) (plateauLevel : Int) (mob : MobState)
    (dx dy : Int) : MobState :=
  if mob.dead then mob
  else
    let newX := mob.spawnX + dx
    let newY := mob.spawnY + dy
    if m.isColliding newX newY then mob
    else if m.isEmpty newX newY then mob
    else if m.isDoor newX newY then mob
    else if distanceLtBool mob.spawnX mob.spawnY newX newY mob.roamDistance then mob
    else if newX == mob.x && newY == mob.y then mob
    else if mob.combatStarted then mob
    else if plateauLevel != m.getPlateauLevel newX newY then mob
    else { mob with x := newX, y := newY }

/-- A living, out-of-combat mob at spawn (100,100) with roam distance 5. -/
def mobAtSpawn : MobState :=
  { x := 100, y := 100, spawnX := 100, spawnY := 100, roamDistance := 5,
    dead := false, combatStarted := false }

/-- A map with no collisions, no empty tiles, no doors and one plateau. -/
def openMap : MapModel :=
  { isColliding := fun _ _ => false, isEmpty := fun _ _ => false,
    isDoor := fun _ _ => false, getPlateauLevel := fun _ _ => 0 }

end Roam

/-! ## TeamWar minigame -/

namespace TeamWar

/-- Players are identified by instance; any type with decidable equality
would do, `Nat` keeps the embedding executable. -/
abbrev PlayerId := Nat

/-- The TeamWar membership state: the lobby and the two team rosters, the
match-started flag and the countdown consulted by the periodic tick. -/
structure State where
  lobby : List PlayerId
  redTeam : List PlayerId
  blueTeam : List PlayerId
  started : Bool
  countdown : Int
  deriving DecidableEq, Repr

/-- The constructor's state: empty rosters, countdown 120, not started. -/
def initial : State :=
  { lobby := [], redTeam := [], blueTeam := [], started := false, countdown := 120 }

/-- `TeamWar.add`: no-op when the player is already in the lobby,
otherwise push onto the lobby. -/
def add (p : PlayerId) (s : State) : State :=
  if s.lobby.contains p then s else { s with lobby := s.lobby ++ [p] }

/-- `TeamWar.remove`: splice out the first occurrence of the player from
the lobby; no-op when absent. Team rosters are untouched. -/
def remove (p : PlayerId) (s : State) : State :=
  { s with lobby := s.lobby.erase p }

/-- `TeamWar.buildTeams`: copy the lobby, take `half = ceil(n/2)`, and give
the first `half` players to red or blue according to the coin flip
`random`, the rest to the other team. The lobby itself is NOT modified in
the source. -/
def buildTeams (random : Nat) (s : State) : State :=
  let tmp := s.lobby
  let half := (tmp.length + 1) / 2
  if random = 1 then
    { s with redTeam := tmp.take half, blueTeam := tmp.drop half }
  else
    { s with blueTeam := tmp.take half, redTeam := tmp.drop half }

/-- One firing of the periodic update interval: do nothing unless at least
5 players wait and the countdown has elapsed; otherwise build teams and
mark the match started (the countdown synchronize only emits packets and
does not change membership, so it is omitted from the membership state). -/
def tick (random : Nat) (s : State) : State :=
  if s.lobby.length < 5 || decide (0 < s.countdown) then s
  else { buildTeams random s with started := true }

/-- The operations of the minigame that touch membership. -/
inductive Op where
  | add (p : PlayerId)
  | remove (p : PlayerId)
  | buildTeams (random : Nat)
  | tick (random : Nat)

/-- Apply one operation. -/
def step (op : Op) (s : State) : State :=
  match op with
  | .add p => add p s
  | .remove p => remove p s
  | .buildTeams r => buildTeams r s
  | .tick r => tick r s

end TeamWar

/-! ## Doors registry -/

namespace DoorsM

/-- A door status is `open`, `closed`, or absent (`undefined` in the
source, modelled as `Option`). -/
inductive DoorStatus where
  | open
  | closed
  deriving DecidableEq, Repr

/-- The value stored per tile key in `closedIds`/`openIds`. -/
structure IDs where
  data : List Int
  isColliding : Bool
  deriving DecidableEq, Repr

/-- A door definition. Tile sets map a tile index (the JSON key) to its
render data and collision flag; they are embedded as association lists in
JSON key order. -/
structure Door where
  id : Nat
  x : Int
  y : Int
  status : Option DoorStatus
  requirement : String
  level : Option Int
  questId : Option Nat
  achievementId : Option Nat
  closedIds : List (Nat × IDs)
  openIds : List (Nat × IDs)
  deriving DecidableEq, Repr

/-- The flattened parallel sequences produced by `getTiles`/`getAllTiles`. -/
structure DoorTiles where
  indexes : List Nat
  data : List (List Int)
  collisions : List Bool
  deriving DecidableEq, Repr

/-- The player-side context a `Doors` view consults: the persistence
bypass flag and the progression collaborators (quest door-unlock
predicate, achievement-finished predicate, player level). A quest or
achievement that does not exist yields `false` from its predicate, mirroring
the source's `quest && quest.hasDoorUnlocked(door)` undefined-guard. -/
structure PlayerCtx where
  skipDatabase : Bool
  level : Int
  questExists : Nat → Bool
  questDoorUnlocked : Nat → Nat → Bool
  achievementExists : Nat → Bool
  achievementFinished : Nat → Bool

/-- `Doors.getStatus`: a fixed literal status wins; with persistence
disabled everything is open; otherwise branch on the requirement string.
The switch has no default, so an unrecognized requirement returns
`undefined` (`none`). -/
def getStatus (ctx : PlayerCtx) (door : Door) : Option DoorStatus :=
  match door.status with
  | some s => some s
  | none =>
    if ctx.skipDatabase then some .open
    else
      match door.requirement with
      | "quest" =>
        let qid := door.questId.getD 0
        some (if ctx.questExists qid && ctx.questDoorUnlocked qid door.id
              then .open else .closed)
      | "achievement" =>
        let aid := door.achievementId.getD 0
        some (if ctx.achievementExists aid && ctx.achievementFinished aid
              then .open else .closed)
      | "level" =>
        some (if door.level.getD 0 ≤ ctx.level then .open else .closed)
      | _ => none

/-- `Doors.getTiles`: select the open or closed tile set per the computed
status and flatten it. Indexing a JavaScript object with `undefined`
(`doorState[status!]` when the status is `undefined`) yields `undefined`,
over which `_.each` iterates zero times, hence the empty result. -/
def getTiles (ctx : PlayerCtx) (door : Door) : DoorTiles :=
  let chosen :=
    match getStatus ctx door with
    | some .open => door.openIds
    | some .closed => door.closedIds
    | none => []
  { indexes := chosen.map Prod.fst,
    data := chosen.map fun kv => kv.2.data,
    collisions := chosen.map fun kv => kv.2.isColliding }

/-- `Doors.getAllTiles` as written in the source: the loop body that would
aggregate each door's tiles is commented out (`//TODO - Redo`), so the
accumulator is returned still empty whatever the doors are. -/
def getAllTiles (_ctx : PlayerCtx) (_doors : List Door) : DoorTiles :=
  { indexes := [], data := [], collisions := [] }

/-- `Doors.hasCollision`: resolve the coordinate to a map tile index via
the map's `coordToIndex`, search it among `getAllTiles`'s indexes
(JavaScript `indexOf`, first occurrence), return `false` when absent and
the parallel collision flag when present. -/
def hasCollision (ctx : PlayerCtx) (doors : List Door)
    (coordToIndex : Int → Int → Nat) (x y : Int) : Bool :=
  let tiles := getAllTiles ctx doors
  let tileIndex := coordToIndex x y
  match tiles.indexes.indexOf? tileIndex with
  | none => false
  | some i => tiles.collisions.getD i false

/-- `Doors.isClosed`: whether the computed status equals closed. -/
def isClosed (ctx : PlayerCtx) (door : Door) : Bool :=
  getStatus ctx door == some .closed

/-- A player context with persistence enabled, player level 1, and no
quests or achievements. -/
def plainCtx : PlayerCtx :=
  { skipDatabase := false, level := 1,
    questExists := fun _ => false, questDoorUnlocked := fun _ _ => false,
    achievementExists := fun _ => false, achievementFinished := fun _ => false }

/-- A level-gated door (requires level 10) whose closed tile set holds the
single colliding tile index 5. -/
def gatedDoor : Door :=
  { id := 1, x := 3, y := 4, status := none, requirement := "level",
    level := some 10, questId := none, achievementId := none,
    closedIds := [(5, { data := [7], isColliding := true })],
    openIds := [] }

/-- A door with no literal status whose requirement string matches no
branch of the switch. -/
def oddDoor : Door :=
  { id := 2, x := 8, y := 9, status := none, requirement := "teleport",
    level := none, questId := none, achievementId := none,
    closedIds := [(6, { data := [3], isColliding := true })],
    openIds := [] }

end DoorsM

/-! ## Player vitals and experience (Player.addExperience) -/

namespace PlayerM

/-- Modelled from the spec: the `Points` vitals container (hit points,
mana) lives outside src/; per the data model a vital is "bounded by a max"
with `0 ≤ current ≤ max`, so `increment` adds and clamps at `maxPoints`,
and setting the max merely replaces the bound. -/
structure Points where
  points : Int
  maxPoints : Int
  deriving DecidableEq, Repr

/-- Add to a vital, clamping at its max. -/
def Points.increment (p : Points) (amount : Int) : Points :=
  { p with points := min (p.points + amount) p.maxPoints }

/-- Replace a vital's max. -/
def Points.setMax (p : Points) (m : Int) : Points :=
  { p with maxPoints := m }

/-- The formula collaborators `Player.addExperience` consults
(`Formulas.expToLevel`, `nextExp`, `prevExp`, `getMaxHitPoints`). -/
structure Formulas where
  expToLevel : Int → Int
  nextExp : Int → Int
  prevExp : Int → Int
  getMaxHitPoints : Int → Int

/-- The slice of the player aggregate `addExperience` reads and writes:
progression scalars, the hit-points vital, and observation counters for
the region resends and popups it triggers. -/
structure PState where
  experience : Int
  level : Int
  nextExperience : Int
  prevExperience : Int
  hitPoints : Points
  regionSends : Nat
  popups : List String
  deriving DecidableEq, Repr

/-- `Player.addExperience`: add the experience, recompute level and the
two thresholds from the new experience, and when the level changed set the
max hit points from the new level, heal by the (new) max (a full heal via
the clamp), resend the region and emit the level-up popup. The two
experience packets and the trailing `sync()` emit data but mutate none of
the state modelled here. -/
def addExperience (f : Formulas) (exp : Int) (p : PState) : PState :=
  let experience := p.experience + exp
  let oldLevel := p.level
  let level := f.expToLevel experience
  let p1 : PState :=
    { p with experience, level,
             nextExperience := f.nextExp experience,
             prevExperience := f.prevExp experience }
  if oldLevel ≠ level then
    let hp1 := p1.hitPoints.setMax (f.getMaxHitPoints level)
    let hp2 := hp1.increment hp1.maxPoints
    { p1 with hitPoints := hp2,
              regionSends := p1.regionSends + 1,
              popups := p1.popups ++ ["Level Up!"] }
  else p1

end PlayerM

/-! ## Skills aggregate -/

namespace SkillsM

/-- The per-skill state the aggregate reads: its level and whether it
participates in combat-level aggregation (the flag is set by the skill
implementation files outside src/, so it is kept symbolic here). -/
structure SkillState where
  combat : Bool
  level : Int
  deriving DecidableEq, Repr

/-- The `Skills` aggregate: the loaded flag and the six fixed skill
instances of the dictionary, in its construction order. -/
structure Skills where
  loaded : Bool
  accuracy : SkillState
  archery : SkillState
  health : SkillState
  lumberjacking : SkillState
  magic : SkillState
  strength : SkillState
  deriving DecidableEq, Repr

/-- The skill dictionary's values in iteration order. -/
def Skills.skillList (s : Skills) : List SkillState :=
  [s.accuracy, s.archery, s.health, s.lumberjacking, s.magic, s.strength]

/-- `Skills.getCombatSkills`: filter the dictionary on the combat flag. -/
def Skills.getCombatSkills (s : Skills) : List SkillState :=
  s.skillList.filter (·.combat)

/-- `Skills.getCombatLevel`: start the accumulator at 1 and add
`level - 1` for each combat skill, exactly the source's loop. -/
def Skills.getCombatLevel (s : Skills) : Int :=
  s.getCombatSkills.foldl (fun acc sk => acc + sk.level - 1) 1

/-- Formula collaborators consumed by `Skills.sync`. -/
structure Formulas where
  getMaxHitPoints : Int → Int
  getMaxMana : Int → Int

/-- The player fields `Skills.sync` writes. -/
structure PVitals where
  hitPoints : PlayerM.Points
  mana : PlayerM.Points
  level : Int
  deriving DecidableEq, Repr

/-- The packets `Skills.sync` can push to the owning player. -/
inductive Packet where
  | experienceSync (level : Int)
  | points (hitPoints maxHitPoints mana maxMana : Int)
  deriving DecidableEq, Repr

/-- `Skills.sync`: a no-op before `load` completes; otherwise set the
player's max hit points from the health skill's level and max mana from
the magic skill's level, set the player's level to the combat level, and
push the level-sync packet followed by the combined vitals packet. -/
def sync (f : Formulas) (s : Skills) (p : PVitals) : PVitals × List Packet :=
  if !s.loaded then (p, [])
  else
    let hp := p.hitPoints.setMax (f.getMaxHitPoints s.health.level)
    let mana := p.mana.setMax (f.getMaxMana s.magic.level)
    let level := s.getCombatLevel
    ({ hitPoints := hp, mana := mana, level },
     [.experienceSync level,
      .points hp.points hp.maxPoints mana.points mana.maxPoints])

end SkillsM

/-! ## Player.getHit and special attacks -/

namespace HitM

/-- The hit kinds `Player.getHit` can produce. -/
inductive HitType where
  | damage
  | critical
  | stun
  | explosive
  deriving DecidableEq, Repr

/-- A hit: its kind and damage amount. -/
structure Hit where
  type : HitType
  damage : Int
  deriving DecidableEq, Repr

/-- The weapon enchantment kinds the switch in `getHit` inspects; `other`
stands for any ability value matching none of its cases. -/
inductive Ability where
  | critical
  | stun
  | explosive
  | other
  deriving DecidableEq, Repr

/-- The equipped weapon's fields `getHit` reads. -/
structure Weapon where
  ability : Ability
  abilityLevel : Int
  deriving DecidableEq, Repr

/-- `Player.hasSpecialAttack` as overridden on Player: unconditionally
false. -/
def hasSpecialAttack : Bool := false

/-- `Player.getHit`, with the damage formula's result and the random roll
`Utils.randomInt(0, 100)` passed in. A special attack requires both a
successful roll and `hasSpecialAttack()`; the enchantment switch has no
default case, so an unmatched ability would return `undefined`. -/
def getHit (weapon : Weapon) (defaultDamage : Int) (roll : Int) : Option Hit :=
  let isSpecial := decide (roll < 30 + weapon.abilityLevel * 3)
  if !isSpecial || !hasSpecialAttack then some ⟨.damage, defaultDamage⟩
  else
    match weapon.ability with
    | .critical => some ⟨.critical, defaultDamage * (1 + weapon.abilityLevel)⟩
    | .stun => some ⟨.stun, defaultDamage⟩
    | .explosive => some ⟨.explosive, defaultDamage⟩
    | .other => none

end HitM

/-! ## Player.notify rate limiting -/

namespace NotifyM

/-- A text notification packet, carrying the parsed message and colour. -/
structure TextPacket where
  message : String
  colour : Option String
  deriving DecidableEq, Repr

/-- `Player.notify`, with the current clock `now` and the externally
defined `Utils.parseMessage` passed in. Returns the packets sent (zero or
one) and the new `lastNotify` timestamp: nothing happens on an empty
message or within 250 ms of the last successful notification. -/
def notify (parse : String → String) (message : String)
    (colour : Option String) (now lastNotify : Int) :
    List TextPacket × Int :=
  if message = "" then ([], lastNotify)
  else if now - lastNotify < 250 then ([], lastNotify)
  else ([{ message := parse message, colour }], now)

end NotifyM

/-! ## Player.incrementCheatScore -/

namespace CheatM

/-- The player fields around `incrementCheatScore`: the combat-started
flag it consults, the cheat score it mutates, and representative other
scalars used to observe frame effects. -/
structure PState where
  combatStarted : Bool
  cheatScore : Int
  experience : Int
  level : Int
  x : Int
  y : Int
  rights : Int
  deriving DecidableEq, Repr

/-- `Player.incrementCheatScore`: ignored entirely while combat has
started; otherwise add the amount to the cheat score and invoke the
cheat-score callback (reported as the returned flag). -/
def incrementCheatScore (amount : Int) (p : PState) : PState × Bool :=
  if p.combatStarted then (p, false)
  else ({ p with cheatScore := p.cheatScore + amount }, true)

end CheatM

/-! ## Helper lemmas (shared) -/

/-- Bool form of the red/blue roster disjointness used by the TeamWar
invariant. -/
def TeamWar.teamsDisjoint (s : TeamWar.State) : Bool :=
  s.redTeam.all fun p => !s.blueTeam.contains p

theorem TeamWar.teamsDisjoint_iff (s : TeamWar.State) :
    TeamWar.teamsDisjoint s = true ↔ ∀ p ∈ s.redTeam, p ∉ s.blueTeam := by
  simp [TeamWar.teamsDisjoint]

theorem TeamWar.buildTeams_disjoint (r : Nat) (s : TeamWar.State)
    (h : s.lobby.Nodup) : TeamWar.teamsDisjoint (TeamWar.buildTeams r s) = true := by
  rw [TeamWar.teamsDisjoint_iff]
  unfold TeamWar.buildTeams
  split
  · intro p hp hq
    exact (List.disjoint_take_drop h le_rfl) hp hq
  · intro p hp hq
    exact (List.disjoint_take_drop h le_rfl) hq hp

theorem TeamWar.buildTeams_lobby (r : Nat) (s : TeamWar.State) :
    (TeamWar.buildTeams r s).lobby = s.lobby := by
  unfold TeamWar.buildTeams
  split <;> rfl

/-! ## Claim theorems -/

/-- Claim C1 (code bug, evaluated at the failing input): on a living,
out-of-combat mob at spawn (100,100) with roam distance 5, on a map with
no collisions, empty tiles or doors and one plateau, the candidate
(100,104) at straight-line distance 4 < 5 from spawn is REJECTED (the mob
does not move), while the candidate (100,106) at distance 6 ≥ 5 is
ACCEPTED — the exact opposite of the claim and of the source's own
comment, because line 95 reads `if (distance < roamDistance) return`. -/
theorem handleRoaming_distance_check_inverted :
    Roam.handleRoaming Roam.openMap 0 Roam.mobAtSpawn 0 4 = Roam.mobAtSpawn ∧
    Roam.handleRoaming Roam.openMap 0 Roam.mobAtSpawn 0 6 =
      { Roam.mobAtSpawn with y := 106 } := by
  decide

/-- Claim C2, counterexample: from the initial TeamWar state, add player 0
to the lobby and run `buildTeams` with coin flip 1; afterwards player 0 is
a member of BOTH the lobby and the red team, because `buildTeams` splits a
copy of the lobby and never clears the lobby itself. -/
theorem buildTeams_keeps_lobby_membership :
    0 ∈ (TeamWar.buildTeams 1 (TeamWar.add 0 TeamWar.initial)).lobby ∧
    0 ∈ (TeamWar.buildTeams 1 (TeamWar.add 0 TeamWar.initial)).redTeam := by
  decide

/-- Claim C2 as amended: across every operation (add, remove, buildTeams,
tick), a player is a member of at most one of the two team rosters — the
rosters stay disjoint and the lobby stays duplicate-free — but lobby
membership is not exclusive with team membership, since `buildTeams`
leaves the lobby untouched. -/
theorem teamwar_roster_exclusivity (s : TeamWar.State) (op : TeamWar.Op)
    (h1 : s.lobby.Nodup) (h2 : TeamWar.teamsDisjoint s = true) :
    (TeamWar.step op s).lobby.Nodup ∧
    TeamWar.teamsDisjoint (TeamWar.step op s) = true := by
  cases op with
  | add p =>
    show (TeamWar.add p s).lobby.Nodup ∧ TeamWar.teamsDisjoint (TeamWar.add p s) = true
    unfold TeamWar.add
    split
    · exact ⟨h1, h2⟩
    · next hmem =>
      have hp : p ∉ s.lobby := by
        simpa using hmem
      refine ⟨?_, h2⟩
      show (s.lobby ++ [p]).Nodup
      rw [List.nodup_append]
      refine ⟨h1, List.nodup_singleton p, ?_⟩
      intro a ha hap
      rw [List.mem_singleton] at hap
      exact hp (hap ▸ ha)
  | remove p =>
    exact ⟨h1.erase p, h2⟩
  | buildTeams r =>
    refine ⟨?_, TeamWar.buildTeams_disjoint r s h1⟩
    show (TeamWar.buildTeams r s).lobby.Nodup
    rw [TeamWar.buildTeams_lobby]
    exact h1
  | tick r =>
    show (TeamWar.tick r s).lobby.Nodup ∧ TeamWar.teamsDisjoint (TeamWar.tick r s) = true
    unfold TeamWar.tick
    split
    · exact ⟨h1, h2⟩
    · refine ⟨?_, ?_⟩
      · show (TeamWar.buildTeams r s).lobby.Nodup
        rw [TeamWar.buildTeams_lobby]
        exact h1
      · exact TeamWar.buildTeams_disjoint r s h1

/-- Witness for the amended C2 theorem at a concrete five-player state and
the buildTeams operation. -/
theorem teamwar_roster_exclusivity_witness :
    (TeamWar.step (TeamWar.Op.buildTeams 1)
      { lobby := [1, 2, 3, 4, 5], redTeam := [], blueTeam := [],
        started := false, countdown := 0 }).lobby.Nodup ∧
    TeamWar.teamsDisjoint (TeamWar.step (TeamWar.Op.buildTeams 1)
      { lobby := [1, 2, 3, 4, 5], redTeam := [], blueTeam := [],
        started := false, countdown := 0 }) = true :=
  teamwar_roster_exclusivity
    { lobby := [1, 2, 3, 4, 5], redTeam := [], blueTeam := [],
      started := false, countdown := 0 }
    (TeamWar.Op.buildTeams 1) (by decide) (by decide)

/-- Claim C3 (code bug, evaluated at the failing input): the level-gated
door is closed for a level-1 player and its currently-relevant (closed)
tile set contains tile index 5 with collision flag true — yet
`hasCollision` at a coordinate resolving to tile index 5 returns false,
because `getAllTiles` aggregates nothing (its loop body is commented out). -/
theorem hasCollision_ignores_door_tiles :
    DoorsM.getStatus DoorsM.plainCtx DoorsM.gatedDoor = some .closed ∧
    DoorsM.getTiles DoorsM.plainCtx DoorsM.gatedDoor =
      { indexes := [5], data := [[7]], collisions := [true] } ∧
    DoorsM.hasCollision DoorsM.plainCtx [DoorsM.gatedDoor] (fun _ _ => 5) 3 4
      = false := by
  decide

/-- Claim C4, counterexample: a door without a literal status, with
persistence enabled, whose requirement string "teleport" matches no branch
gets status `none` (undefined), NOT closed, and `isClosed` returns false
for it. -/
theorem getStatus_unknown_requirement_not_closed :
    DoorsM.getStatus DoorsM.plainCtx DoorsM.oddDoor = none ∧
    DoorsM.isClosed DoorsM.plainCtx DoorsM.oddDoor = false := by
  decide

/-- Claim C4 as amended: for every door without a fixed literal status,
with persistence enabled, whose requirement is none of quest, achievement,
level, `getStatus` returns no status at all (undefined) and `isClosed`
returns false — the door is treated as not closed, not as closed. -/
theorem getStatus_unknown_requirement (ctx : DoorsM.PlayerCtx)
    (door : DoorsM.Door) (h1 : door.status = none)
    (h2 : ctx.skipDatabase = false) (h3 : door.requirement ≠ "quest")
    (h4 : door.requirement ≠ "achievement") (h5 : door.requirement ≠ "level") :
    DoorsM.getStatus ctx door = none ∧
    DoorsM.isClosed ctx door = false := by
  have hst : DoorsM.getStatus ctx door = none := by
    unfold DoorsM.getStatus
    rw [h1, h2]
    simp only [Bool.false_eq_true, if_false]
  refine ⟨hst, ?_⟩
  unfold DoorsM.isClosed
  rw [hst]
  rfl

/-- Witness for the amended C4 theorem at the concrete unknown-requirement
door. -/
theorem getStatus_unknown_requirement_witness :
    DoorsM.getStatus DoorsM.plainCtx DoorsM.oddDoor = none ∧
    DoorsM.isClosed DoorsM.plainCtx DoorsM.oddDoor = false :=
  getStatus_unknown_requirement DoorsM.plainCtx DoorsM.oddDoor rfl rfl
    (by decide) (by decide) (by decide)

/-- Claim C5: adding non-negative experience bumps the counter by `exp`
and recomputes level and both thresholds from the new experience via the
formula functions; exactly when the recomputed level differs from the old
one, the max hit points become the level-derived max, the hit points are
healed to that max, one region resend is forced and one level-up popup is
emitted; when the level is unchanged none of those four effects occur. -/
theorem addExperience_spec (f : PlayerM.Formulas) (exp : Int)
    (p : PlayerM.PState) (_hexp : 0 ≤ exp) (hhp : 0 ≤ p.hitPoints.points) :
    (PlayerM.addExperience f exp p).experience = p.experience + exp ∧
    (PlayerM.addExperience f exp p).level = f.expToLevel (p.experience + exp) ∧
    (PlayerM.addExperience f exp p).nextExperience = f.nextExp (p.experience + exp) ∧
    (PlayerM.addExperience f exp p).prevExperience = f.prevExp (p.experience + exp) ∧
    (f.expToLevel (p.experience + exp) ≠ p.level →
      (PlayerM.addExperience f exp p).hitPoints.maxPoints
          = f.getMaxHitPoints (f.expToLevel (p.experience + exp)) ∧
      (PlayerM.addExperience f exp p).hitPoints.points
          = (PlayerM.addExperience f exp p).hitPoints.maxPoints ∧
      (PlayerM.addExperience f exp p).regionSends = p.regionSends + 1 ∧
      (PlayerM.addExperience f exp p).popups = p.popups ++ ["Level Up!"]) ∧
    (f.expToLevel (p.experience + exp) = p.level →
      (PlayerM.addExperience f exp p).hitPoints = p.hitPoints ∧
      (PlayerM.addExperience f exp p).regionSends = p.regionSends ∧
      (PlayerM.addExperience f exp p).popups = p.popups) := by
  simp only [PlayerM.addExperience, PlayerM.Points.setMax, PlayerM.Points.increment]
  split
  · next hne =>
    refine ⟨rfl, rfl, rfl, rfl, fun _ => ⟨rfl, ?_, rfl, rfl⟩, fun heq => absurd heq.symm hne⟩
    show min (p.hitPoints.points + f.getMaxHitPoints (f.expToLevel (p.experience + exp)))
        (f.getMaxHitPoints (f.expToLevel (p.experience + exp)))
      = f.getMaxHitPoints (f.expToLevel (p.experience + exp))
    exact min_eq_right (le_add_of_nonneg_left hhp)
  · next heq =>
    rw [not_ne_iff] at heq
    exact ⟨rfl, rfl, rfl, rfl, fun hne => absurd heq.symm hne, fun _ => ⟨rfl, rfl, rfl⟩⟩

/-- Concrete formula functions for the C5 witness: one level per 100
experience, max hit points 100 + 5 per level. -/
def formulasW : PlayerM.Formulas :=
  { expToLevel := fun e => e / 100 + 1, nextExp := fun e => (e / 100 + 1) * 100,
    prevExp := fun e => (e / 100) * 100, getMaxHitPoints := fun l => 100 + l * 5 }

/-- A level-1 player with 0 experience and 50/105 hit points. -/
def playerW : PlayerM.PState :=
  { experience := 0, level := 1, nextExperience := 100, prevExperience := 0,
    hitPoints := { points := 50, maxPoints := 105 }, regionSends := 0, popups := [] }

/-- Witness for C5 at a concrete level-crossing experience gain. -/
theorem addExperience_spec_witness :
    (PlayerM.addExperience formulasW 150 playerW).experience = 150 ∧
    (PlayerM.addExperience formulasW 150 playerW).hitPoints.points
      = (PlayerM.addExperience formulasW 150 playerW).hitPoints.maxPoints ∧
    (PlayerM.addExperience formulasW 150 playerW).popups = [] ++ ["Level Up!"] := by
  have h := addExperience_spec formulasW 150 playerW (by decide) (by decide)
  exact ⟨h.1, (h.2.2.2.2.1 (by decide)).2.1, (h.2.2.2.2.1 (by decide)).2.2.2⟩

/-- Claim C6: before `load` completes, `Skills.sync` has zero observable
effect — the player's vitals and level are returned unchanged and no
packet is emitted. -/
theorem skills_sync_noop_before_load (f : SkillsM.Formulas)
    (s : SkillsM.Skills) (p : SkillsM.PVitals) (h : s.loaded = false) :
    SkillsM.sync f s p = (p, []) := by
  unfold SkillsM.sync
  rw [h]
  rfl

/-- Concrete formulas for the skills witnesses. -/
def skillFormulasW : SkillsM.Formulas :=
  { getMaxHitPoints := fun l => 100 + l * 5, getMaxMana := fun l => 50 + l * 5 }

/-- A not-yet-loaded skills aggregate with all six skills at level 1. -/
def skillsNotLoadedW : SkillsM.Skills :=
  { loaded := false,
    accuracy := { combat := true, level := 1 },
    archery := { combat := true, level := 1 },
    health := { combat := true, level := 1 },
    lumberjacking := { combat := false, level := 1 },
    magic := { combat := true, level := 1 },
    strength := { combat := true, level := 1 } }

/-- Concrete vitals for the C6 witness. -/
def vitalsW : SkillsM.PVitals :=
  { hitPoints := { points := 10, maxPoints := 20 },
    mana := { points := 5, maxPoints := 15 }, level := 3 }

/-- Witness for C6 at a concrete unloaded aggregate. -/
theorem skills_sync_noop_before_load_witness :
    SkillsM.sync skillFormulasW skillsNotLoadedW vitalsW = (vitalsW, []) :=
  skills_sync_noop_before_load skillFormulasW skillsNotLoadedW vitalsW rfl

/-- The source's combat-level loop, over any list, equals its start plus
the sum of `level - 1`. -/
theorem foldl_level_sub_one (l : List SkillsM.SkillState) (c : Int) :
    l.foldl (fun acc sk => acc + sk.level - 1) c
      = c + (l.map fun sk => sk.level - 1).sum := by
  induction l generalizing c with
  | nil => simp
  | cons a t ih =>
    simp only [List.foldl_cons, List.map_cons, List.sum_cons, ih]
    ring

/-- Claim C7: `getCombatLevel` is 1 plus the sum of `level - 1` over
exactly the combat-flagged skills, and equals exactly 1 whenever every
combat-flagged skill is at level 1, however many there are. -/
theorem getCombatLevel_spec (s : SkillsM.Skills) :
    s.getCombatLevel = 1 + (s.getCombatSkills.map fun sk => sk.level - 1).sum ∧
    ((∀ sk ∈ s.getCombatSkills, sk.level = 1) → s.getCombatLevel = 1) := by
  have hbase : s.getCombatLevel
      = 1 + (s.getCombatSkills.map fun sk => sk.level - 1).sum :=
    foldl_level_sub_one s.getCombatSkills 1
  refine ⟨hbase, fun hall => ?_⟩
  rw [hbase, List.sum_eq_zero, add_zero]
  intro x hx
  rcases List.mem_map.mp hx with ⟨sk, hsk, rfl⟩
  rw [hall sk hsk]
  ring

/-- Witness for C7: with all five combat-flagged skills at level 1 the
combat level is exactly 1. -/
theorem getCombatLevel_spec_witness :
    skillsNotLoadedW.getCombatLevel = 1 :=
  (getCombatLevel_spec skillsNotLoadedW).2 (by decide)

/-- Claim C8: since `Player.hasSpecialAttack()` is unconditionally false,
`getHit` returns the plain damage hit carrying the formula damage for
every weapon, damage value and special-attack roll; the enchantment
branches are unreachable. -/
theorem getHit_always_plain_damage (w : HitM.Weapon) (dmg roll : Int) :
    HitM.getHit w dmg roll = some { type := HitM.HitType.damage, damage := dmg } := by
  unfold HitM.getHit HitM.hasSpecialAttack
  simp

/-- Claim C9: a non-empty notification within 250 ms of the last
successful one sends nothing and leaves the timestamp unchanged;
otherwise exactly one text packet is sent and the timestamp becomes the
current time. -/
theorem notify_rate_limit (parse : String → String) (msg : String)
    (c : Option String) (now last : Int) (hmsg : msg ≠ "") :
    (now - last < 250 → NotifyM.notify parse msg c now last = ([], last)) ∧
    (250 ≤ now - last →
      NotifyM.notify parse msg c now last
        = ([{ message := parse msg, colour := c }], now)) := by
  constructor
  · intro h
    unfold NotifyM.notify
    rw [if_neg hmsg, if_pos h]
  · intro h
    unfold NotifyM.notify
    rw [if_neg hmsg, if_neg (not_lt.mpr h)]

/-- Identity message formatting for the C9 witness. -/
def parseIdW : String → String := fun s => s

/-- Witness for C9: at 100 ms since the last notification nothing is
sent; at 300 ms one packet is sent and the timestamp updates. -/
theorem notify_rate_limit_witness :
    NotifyM.notify parseIdW "hello" none 100 0 = ([], 0) ∧
    NotifyM.notify parseIdW "hello" none 300 0
      = ([{ message := parseIdW "hello", colour := none }], 300) :=
  ⟨(notify_rate_limit parseIdW "hello" none 100 0 (by decide)).1 (by decide),
   (notify_rate_limit parseIdW "hello" none 300 0 (by decide)).2 (by decide)⟩

/-- Claim C10: with combat started, `incrementCheatScore` changes nothing
and skips the callback; otherwise the cheat score grows by exactly the
amount, the callback fires, and every other modelled field is unchanged. -/
theorem incrementCheatScore_spec (amount : Int) (p : CheatM.PState) :
    (p.combatStarted = true → CheatM.incrementCheatScore amount p = (p, false)) ∧
    (p.combatStarted = false →
      (CheatM.incrementCheatScore amount p).2 = true ∧
      (CheatM.incrementCheatScore amount p).1.cheatScore = p.cheatScore + amount ∧
      (CheatM.incrementCheatScore amount p).1.combatStarted = p.combatStarted ∧
      (CheatM.incrementCheatScore amount p).1.experience = p.experience ∧
      (CheatM.incrementCheatScore amount p).1.level = p.level ∧
      (CheatM.incrementCheatScore amount p).1.x = p.x ∧
      (CheatM.incrementCheatScore amount p).1.y = p.y ∧
      (CheatM.incrementCheatScore amount p).1.rights = p.rights) := by
  constructor
  · intro h
    unfold CheatM.incrementCheatScore
    rw [if_pos h]
  · intro h
    unfold CheatM.incrementCheatScore
    rw [if_neg (by simp [h])]
    exact ⟨rfl, rfl, rfl, rfl, rfl, rfl, rfl, rfl⟩

/-- A player in combat for the C10 witness. -/
def playerInCombatW : CheatM.PState :=
  { combatStarted := true, cheatScore := 3, experience := 10, level := 2,
    x := 1, y := 1, rights := 0 }

/-- A player out of combat for the C10 witness. -/
def playerIdleW : CheatM.PState :=
  { combatStarted := false, cheatScore := 3, experience := 10, level := 2,
    x := 1, y := 1, rights := 0 }

/-- Witness for C10 at one in-combat and one idle player. -/
theorem incrementCheatScore_spec_witness :
    CheatM.incrementCheatScore 5 playerInCombatW = (playerInCombatW, false) ∧
    (CheatM.incrementCheatScore 5 playerIdleW).1.cheatScore
      = playerIdleW.cheatScore + 5 :=
  ⟨(incrementCheatScore_spec 5 playerInCombatW).1 rfl,
   ((incrementCheatScore_spec 5 playerIdleW).2 rfl).2.1⟩
